import Mathlib

/-!
Shallow embedding of `src/main.rs` of the `bevy_letterboxes` repository.

The program keeps two letterbox bars and a camera projection in sync with
window-resize events, and bounces a sample object horizontally.  Floating
point values of the source are embedded as exact rationals; the entity
queries of the engine are embedded as explicit lists of component records,
and the panicking `unwrap()` on the camera query is embedded as an
`Option` result where `none` stands for a program abort.
-/

namespace BevyLetterboxes

/-- Resource which defines the dimensions of the camera's view
(struct `ScreenUnits` in `main.rs`). -/
structure ScreenUnits where
  width : ℚ
  height : ℚ
  deriving Repr, DecidableEq

/-- A three dimensional vector (`Vec3` of the engine). -/
structure Vec3 where
  x : ℚ
  y : ℚ
  z : ℚ
  deriving Repr, DecidableEq

/-- A transform component: the parts of the engine's `Transform` that the
program reads or writes (`scale` and `translation`); `rotation` is carried
along untouched. -/
structure Transform where
  scale : Vec3
  rotation : ℚ
  translation : Vec3
  deriving Repr, DecidableEq

/-- Component for the bouncing sprite (struct `SampleObject` in `main.rs`). -/
structure SampleObject where
  direction : ℤ
  deriving Repr, DecidableEq

/-- Component for identifying letterbox entities
(struct `Letterbox` in `main.rs`). -/
structure Letterbox where
  id : ℕ
  deriving Repr, DecidableEq

/-- The camera scaling modes of `bevy::render::camera::ScalingMode` used by
the program; `WindowSize` stands for the remaining modes matched by the
wildcard arm of `change_camera_scaling`. -/
inductive ScalingMode where
  | FixedVertical
  | FixedHorizontal
  | WindowSize
  deriving Repr, DecidableEq

/-- The camera projection component: the fields of the engine's
`OrthographicProjection` that the program writes. -/
structure OrthographicProjection where
  scaling_mode : ScalingMode
  scale : ℚ
  deriving Repr, DecidableEq

/-- A `bevy::window::WindowResized` event; `is_primary` embeds
`window.id.is_primary()`. -/
structure WindowResized where
  width : ℚ
  height : ℚ
  is_primary : Bool
  deriving Repr, DecidableEq

/-- `spawn_sample_object` in `main.rs`: the sample object as spawned,
direction `1`, unit scale, translation `(0, 0, 10)`. -/
def spawn_sample_object : SampleObject × Transform :=
  (⟨1⟩, { scale := ⟨1, 1, 1⟩, rotation := 0, translation := ⟨0, 0, 10⟩ })

/-- `move_sample_object` in `main.rs`, restricted to a single queried
entity: flip the direction if the x translation is far enough outside the
safe area, then move by the (possibly flipped) direction divided by 6. -/
def move_sample_object (screen_units : ScreenUnits)
    (object : SampleObject) (transform : Transform) :
    SampleObject × Transform :=
  let direction :=
    if transform.translation.x > (screen_units.width + 4) / 2 ∨
        transform.translation.x < -((screen_units.width + 4) / 2) then
      object.direction * (-1)
    else
      object.direction
  (⟨direction⟩,
    { transform with
        translation :=
          { transform.translation with
              x := transform.translation.x + (direction : ℚ) / 6 } })

/-- `spawn_letterbox` in `main.rs`: a letterbox entity with the given id,
zero x/y scale and default translation. -/
def spawn_letterbox (id : ℕ) : Letterbox × Transform :=
  (⟨id⟩, { scale := ⟨0, 0, 999⟩, rotation := 0, translation := ⟨0, 0, 0⟩ })

/-- `spawn_letterboxes` in `main.rs`: the two letterbox entities with ids
0 and 1. -/
def spawn_letterboxes : List (Letterbox × Transform) :=
  [spawn_letterbox 0, spawn_letterbox 1]

/-- `set_letterbox` in `main.rs`: overwrite a transform's scale with
`(width, height, 1)` and its translation with `(x_pos, y_pos, 999)`. -/
def set_letterbox (transform : Transform)
    (width height x_pos y_pos : ℚ) : Transform :=
  { transform with
      scale := ⟨width, height, 1⟩
      translation := ⟨x_pos, y_pos, 999⟩ }

/-- `set_letterboxes_vertical` in `main.rs`: size the bars for left/right
padding and place them at `x = ±(letterbox_width + viewport_width)/2`. -/
def set_letterboxes_vertical (game_screen_units : ScreenUnits)
    (letterbox_query : List (Letterbox × Transform))
    (window : WindowResized) : List (Letterbox × Transform) :=
  let units_per_pixel := window.height / game_screen_units.height
  let window_unit_width := window.width / units_per_pixel
  let letterbox_width := (window_unit_width - game_screen_units.width) / 2
  let letterbox_pos_x := (letterbox_width + game_screen_units.width) / 2
  letterbox_query.map fun lb =>
    if lb.1.id = 0 then
      (lb.1, set_letterbox lb.2 letterbox_width game_screen_units.height
        letterbox_pos_x 0)
    else if lb.1.id = 1 then
      (lb.1, set_letterbox lb.2 letterbox_width game_screen_units.height
        (-letterbox_pos_x) 0)
    else lb

/-- `set_letterboxes_horizontal` in `main.rs`: size the bars for top/bottom
padding and place them at `y = ±(letterbox_height + viewport_height)/2`. -/
def set_letterboxes_horizontal (game_screen_units : ScreenUnits)
    (letterbox_query : List (Letterbox × Transform))
    (window : WindowResized) : List (Letterbox × Transform) :=
  let units_per_pixel := window.width / game_screen_units.width
  let window_unit_hight := window.height / units_per_pixel
  let letterbox_height := (window_unit_hight - game_screen_units.height) / 2
  let letterbox_pos_y := (letterbox_height + game_screen_units.height) / 2
  letterbox_query.map fun lb =>
    if lb.1.id = 0 then
      (lb.1, set_letterbox lb.2 game_screen_units.width letterbox_height
        0 letterbox_pos_y)
    else if lb.1.id = 1 then
      (lb.1, set_letterbox lb.2 game_screen_units.width letterbox_height
        0 (-letterbox_pos_y))
    else lb

/-- `change_camera_scaling` in `main.rs`: scan the resize events for the
first one whose window is the primary window (later events are dropped by
the `break`, earlier non-primary ones are skipped), choose the scaling
mode by comparing aspect ratios, update the letterboxes accordingly, and
write mode and `scale / 2` into the first camera projection.  The
`unwrap()` on an empty projection query is a panic, embedded as `none`. -/
def change_camera_scaling (game_screen_units : ScreenUnits)
    (resize_events : List WindowResized)
    (orthographic_projection_query : List OrthographicProjection)
    (letterbox_query : List (Letterbox × Transform)) :
    Option (List OrthographicProjection × List (Letterbox × Transform)) :=
  match resize_events.find? (fun w => w.is_primary) with
  | none => some (orthographic_projection_query, letterbox_query)
  | some window =>
    let new_scaling_mode :=
      if window.width / window.height <
          game_screen_units.width / game_screen_units.height then
        ScalingMode.FixedHorizontal
      else
        ScalingMode.FixedVertical
    let new_scale :=
      if window.width / window.height <
          game_screen_units.width / game_screen_units.height then
        game_screen_units.width
      else
        game_screen_units.height
    let letterboxes :=
      match new_scaling_mode with
      | ScalingMode.FixedVertical =>
        set_letterboxes_vertical game_screen_units letterbox_query window
      | ScalingMode.FixedHorizontal =>
        set_letterboxes_horizontal game_screen_units letterbox_query window
      | _ => letterbox_query
    match orthographic_projection_query with
    | [] => none
    | p :: rest =>
      some (({ p with scaling_mode := new_scaling_mode,
                      scale := new_scale / 2 } :: rest), letterboxes)

/-- C1: for every primary-window resize event, `change_camera_scaling`
picks fixed-vertical mode if and only if
`window_width / window_height ≥ viewport_width / viewport_height`, and
fixed-horizontal mode otherwise; when the two aspect ratios are exactly
equal the fixed-vertical branch is taken. -/
theorem change_camera_scaling_mode_iff
    (su : ScreenUnits) (events : List WindowResized) (w : WindowResized)
    (q : OrthographicProjection) (qs : List OrthographicProjection)
    (lbs : List (Letterbox × Transform))
    (h : events.find? (fun e => e.is_primary) = some w) :
    ∃ p ps lbs2,
      change_camera_scaling su events (q :: qs) lbs = some (p :: ps, lbs2) ∧
      (p.scaling_mode = ScalingMode.FixedVertical ↔
        w.width / w.height ≥ su.width / su.height) ∧
      (p.scaling_mode = ScalingMode.FixedHorizontal ↔
        w.width / w.height < su.width / su.height) ∧
      (w.width / w.height = su.width / su.height →
        p.scaling_mode = ScalingMode.FixedVertical) := by
  unfold change_camera_scaling
  rw [h]
  by_cases hc : w.width / w.height < su.width / su.height
  · refine ⟨⟨ScalingMode.FixedHorizontal, su.width / 2⟩, qs,
      set_letterboxes_horizontal su lbs w, by simp [hc], ?_, ?_, ?_⟩
    · simp [not_le.mpr hc]
    · simpa using hc
    · intro he
      exact absurd he.ge (not_le.mpr hc)
  · refine ⟨⟨ScalingMode.FixedVertical, su.height / 2⟩, qs,
      set_letterboxes_vertical su lbs w, by simp [hc], ?_, ?_, ?_⟩
    · simp [not_lt.mp hc]
    · simp [hc]
    · intro _
      rfl

/-- C1 witness at a concrete input. -/
theorem change_camera_scaling_mode_iff_witness :
    ∃ p ps lbs2,
      change_camera_scaling ⟨20, 15⟩ [⟨1600, 900, true⟩]
        (⟨ScalingMode.WindowSize, 1⟩ :: []) spawn_letterboxes
        = some (p :: ps, lbs2) ∧
      (p.scaling_mode = ScalingMode.FixedVertical ↔
        (1600 : ℚ) / 900 ≥ (20 : ℚ) / 15) ∧
      (p.scaling_mode = ScalingMode.FixedHorizontal ↔
        (1600 : ℚ) / 900 < (20 : ℚ) / 15) ∧
      ((1600 : ℚ) / 900 = (20 : ℚ) / 15 →
        p.scaling_mode = ScalingMode.FixedVertical) :=
  change_camera_scaling_mode_iff ⟨20, 15⟩ [⟨1600, 900, true⟩] ⟨1600, 900, true⟩
    ⟨ScalingMode.WindowSize, 1⟩ [] spawn_letterboxes rfl

/-- C2: in fixed-vertical mode both letterbox transforms get size
`(pad_width, viewport_height)` with
`pad_width = (window_width / (window_height / viewport_height) - viewport_width) / 2`,
one at `x = (pad_width + viewport_width) / 2` and the other at its
negation, both with `y = 0`; for viewport `(20, 15)` and window
`(1600, 900)` this gives `units_per_pixel = 60`, `pad_width = 10/3`,
positions `x = ±35/3` and size `(10/3, 15)`. -/
theorem set_letterboxes_vertical_spec
    (su : ScreenUnits) (w : WindowResized) (t0 t1 : Transform) :
    (set_letterboxes_vertical su [(⟨0⟩, t0), (⟨1⟩, t1)] w =
      [(⟨0⟩, { t0 with
          scale := ⟨(w.width / (w.height / su.height) - su.width) / 2,
            su.height, 1⟩,
          translation :=
            ⟨((w.width / (w.height / su.height) - su.width) / 2 + su.width) / 2,
              0, 999⟩ }),
       (⟨1⟩, { t1 with
          scale := ⟨(w.width / (w.height / su.height) - su.width) / 2,
            su.height, 1⟩,
          translation :=
            ⟨-(((w.width / (w.height / su.height) - su.width) / 2 + su.width) / 2),
              0, 999⟩ })]) ∧
    ((900 : ℚ) / 15 = 60 ∧
      (1600 / ((900 : ℚ) / 15) - 20) / 2 = 10 / 3 ∧
      set_letterboxes_vertical ⟨20, 15⟩ spawn_letterboxes ⟨1600, 900, true⟩ =
        [(⟨0⟩, ⟨⟨10 / 3, 15, 1⟩, 0, ⟨35 / 3, 0, 999⟩⟩),
         (⟨1⟩, ⟨⟨10 / 3, 15, 1⟩, 0, ⟨-(35 / 3), 0, 999⟩⟩)]) := by
  refine ⟨?_, by norm_num, by norm_num, ?_⟩
  · simp [set_letterboxes_vertical, set_letterbox]
  · norm_num [set_letterboxes_vertical, set_letterbox, spawn_letterboxes,
      spawn_letterbox]

/-- C3: in fixed-horizontal mode the computation mirrors the vertical one
with width and height swapped: both letterbox transforms get size
`(viewport_width, pad_height)` with
`pad_height = (window_height / (window_width / viewport_width) - viewport_height) / 2`,
at `x = 0` and `y = ±(pad_height + viewport_height) / 2`. -/
theorem set_letterboxes_horizontal_spec
    (su : ScreenUnits) (w : WindowResized) (t0 t1 : Transform) :
    set_letterboxes_horizontal su [(⟨0⟩, t0), (⟨1⟩, t1)] w =
      [(⟨0⟩, { t0 with
          scale := ⟨su.width,
            (w.height / (w.width / su.width) - su.height) / 2, 1⟩,
          translation := ⟨0,
            ((w.height / (w.width / su.width) - su.height) / 2 + su.height) / 2,
            999⟩ }),
       (⟨1⟩, { t1 with
          scale := ⟨su.width,
            (w.height / (w.width / su.width) - su.height) / 2, 1⟩,
          translation := ⟨0,
            -(((w.height / (w.width / su.width) - su.height) / 2 + su.height) / 2),
            999⟩ })] := by
  simp [set_letterboxes_horizontal, set_letterbox]

/-- C4: for every primary-window resize event, the handler leaves the
first camera projection with the scaling mode chosen by the aspect-ratio
branch, and with scale `viewport_height / 2` in fixed-vertical mode and
`viewport_width / 2` in fixed-horizontal mode. -/
theorem change_camera_scaling_projection_spec
    (su : ScreenUnits) (events : List WindowResized) (w : WindowResized)
    (q : OrthographicProjection) (qs : List OrthographicProjection)
    (lbs : List (Letterbox × Transform))
    (h : events.find? (fun e => e.is_primary) = some w) :
    ∃ p ps lbs2,
      change_camera_scaling su events (q :: qs) lbs = some (p :: ps, lbs2) ∧
      (w.width / w.height ≥ su.width / su.height →
        p.scaling_mode = ScalingMode.FixedVertical ∧ p.scale = su.height / 2) ∧
      (w.width / w.height < su.width / su.height →
        p.scaling_mode = ScalingMode.FixedHorizontal ∧ p.scale = su.width / 2) := by
  unfold change_camera_scaling
  rw [h]
  by_cases hc : w.width / w.height < su.width / su.height
  · refine ⟨⟨ScalingMode.FixedHorizontal, su.width / 2⟩, qs,
      set_letterboxes_horizontal su lbs w, by simp [hc], ?_, ?_⟩
    · intro hge
      exact absurd hge (not_le.mpr hc)
    · intro _
      exact ⟨rfl, rfl⟩
  · refine ⟨⟨ScalingMode.FixedVertical, su.height / 2⟩, qs,
      set_letterboxes_vertical su lbs w, by simp [hc], ?_, ?_⟩
    · intro _
      exact ⟨rfl, rfl⟩
    · intro hlt
      exact absurd hlt hc

/-- C4 witness at a concrete input. -/
theorem change_camera_scaling_projection_spec_witness :
    ∃ p ps lbs2,
      change_camera_scaling ⟨20, 15⟩ [⟨1600, 900, true⟩]
        (⟨ScalingMode.WindowSize, 1⟩ :: []) spawn_letterboxes
        = some (p :: ps, lbs2) ∧
      ((1600 : ℚ) / 900 ≥ (20 : ℚ) / 15 →
        p.scaling_mode = ScalingMode.FixedVertical ∧ p.scale = (15 : ℚ) / 2) ∧
      ((1600 : ℚ) / 900 < (20 : ℚ) / 15 →
        p.scaling_mode = ScalingMode.FixedHorizontal ∧ p.scale = (20 : ℚ) / 2) :=
  change_camera_scaling_projection_spec ⟨20, 15⟩ [⟨1600, 900, true⟩]
    ⟨1600, 900, true⟩ ⟨ScalingMode.WindowSize, 1⟩ [] spawn_letterboxes rfl

/-- C5: a batch of resize events none of which concerns the primary window
leaves the camera projections and the letterbox transforms unchanged. -/
theorem change_camera_scaling_non_primary
    (su : ScreenUnits) (events : List WindowResized)
    (projs : List OrthographicProjection)
    (lbs : List (Letterbox × Transform))
    (h : ∀ e ∈ events, e.is_primary = false) :
    change_camera_scaling su events projs lbs = some (projs, lbs) := by
  unfold change_camera_scaling
  have hnone : events.find? (fun e => e.is_primary) = none := by
    rw [List.find?_eq_none]
    intro e he
    simp [h e he]
  rw [hnone]

/-- C5 witness at a concrete input. -/
theorem change_camera_scaling_non_primary_witness :
    change_camera_scaling ⟨20, 15⟩ [⟨800, 600, false⟩]
      [⟨ScalingMode.FixedVertical, 15 / 2⟩] spawn_letterboxes
      = some ([⟨ScalingMode.FixedVertical, 15 / 2⟩], spawn_letterboxes) :=
  change_camera_scaling_non_primary ⟨20, 15⟩ [⟨800, 600, false⟩]
    [⟨ScalingMode.FixedVertical, 15 / 2⟩] spawn_letterboxes
    (by intro e he; simp only [List.mem_singleton] at he; rw [he])

/-- C6: for every moving object whose x position is above
`(viewport_width + 4) / 2` or below its negation, one tick of
`move_sample_object` negates the direction, and the position update is
applied with the already negated direction. -/
theorem move_sample_object_flips_direction
    (su : ScreenUnits) (object : SampleObject) (t : Transform)
    (h : t.translation.x > (su.width + 4) / 2 ∨
      t.translation.x < -((su.width + 4) / 2)) :
    (move_sample_object su object t).1.direction = -object.direction ∧
    (move_sample_object su object t).2.translation.x
      = t.translation.x + (-object.direction : ℚ) / 6 := by
  unfold move_sample_object
  rw [if_pos h]
  constructor
  · simp
  · push_cast
    ring_nf

/-- C6 witness at a concrete input. -/
theorem move_sample_object_flips_direction_witness :
    (move_sample_object ⟨20, 15⟩ ⟨1⟩ ⟨⟨1, 1, 1⟩, 0, ⟨13, 0, 10⟩⟩).1.direction
        = -1 ∧
    (move_sample_object ⟨20, 15⟩ ⟨1⟩ ⟨⟨1, 1, 1⟩, 0, ⟨13, 0, 10⟩⟩).2.translation.x
        = 13 + (-1 : ℚ) / 6 := by
  have h := move_sample_object_flips_direction ⟨20, 15⟩ ⟨1⟩
    ⟨⟨1, 1, 1⟩, 0, ⟨13, 0, 10⟩⟩ (by norm_num)
  simpa using h

/-- C7 counterexample: for direction `1` and x position `13` (outside the
boundary threshold `12` of viewport width `20`), one tick does not yield
`13 + 1/6`: the direction is flipped before the movement is applied, so
the tick yields `13 - 1/6` instead. -/
theorem move_sample_object_step_cex :
    (move_sample_object ⟨20, 15⟩ ⟨1⟩
      ⟨⟨1, 1, 1⟩, 0, ⟨13, 0, 10⟩⟩).2.translation.x ≠ 13 + (1 : ℚ) / 6 := by
  norm_num [move_sample_object]

/-- C7 (amended): for every direction in `{-1, +1}` and every x position
within the boundary threshold, one tick of `move_sample_object` yields
x position exactly `p + direction / 6` with the pre-tick direction. -/
theorem move_sample_object_step_in_bounds
    (su : ScreenUnits) (object : SampleObject) (t : Transform)
    (_hd : object.direction = 1 ∨ object.direction = -1)
    (h : ¬(t.translation.x > (su.width + 4) / 2 ∨
      t.translation.x < -((su.width + 4) / 2))) :
    (move_sample_object su object t).2.translation.x
      = t.translation.x + (object.direction : ℚ) / 6 := by
  unfold move_sample_object
  rw [if_neg h]

/-- C7 witness at a concrete input. -/
theorem move_sample_object_step_in_bounds_witness :
    (move_sample_object ⟨20, 15⟩ ⟨1⟩
      spawn_sample_object.2).2.translation.x = 0 + (1 : ℚ) / 6 := by
  have h := move_sample_object_step_in_bounds ⟨20, 15⟩ ⟨1⟩
    spawn_sample_object.2 (Or.inl rfl)
    (by norm_num [spawn_sample_object])
  simpa [spawn_sample_object] using h

/-- C8: the direction invariant: the object is spawned with direction `1`,
and a tick either keeps the direction or multiplies it by `-1`, so
membership in `{-1, +1}` is preserved by every tick. -/
theorem sample_object_direction_invariant :
    spawn_sample_object.1.direction = 1 ∧
    (∀ su object t,
      (move_sample_object su object t).1.direction = object.direction ∨
      (move_sample_object su object t).1.direction
        = object.direction * (-1)) ∧
    (∀ su object t,
      object.direction = 1 ∨ object.direction = -1 →
      ((move_sample_object su object t).1.direction = 1 ∨
       (move_sample_object su object t).1.direction = -1)) := by
  refine ⟨rfl, ?_, ?_⟩
  · intro su object t
    unfold move_sample_object
    by_cases h : t.translation.x > (su.width + 4) / 2 ∨
      t.translation.x < -((su.width + 4) / 2)
    · rw [if_pos h]
      right
      rfl
    · rw [if_neg h]
      left
      rfl
  · intro su object t hd
    unfold move_sample_object
    by_cases h : t.translation.x > (su.width + 4) / 2 ∨
      t.translation.x < -((su.width + 4) / 2)
    · rw [if_pos h]
      rcases hd with hd | hd <;> simp [hd]
    · rw [if_neg h]
      exact hd

/-- C8 witness at a concrete input. -/
theorem sample_object_direction_invariant_witness :
    (move_sample_object ⟨20, 15⟩ ⟨1⟩ spawn_sample_object.2).1.direction = 1 ∨
    (move_sample_object ⟨20, 15⟩ ⟨1⟩ spawn_sample_object.2).1.direction = -1 :=
  sample_object_direction_invariant.2.2 ⟨20, 15⟩ ⟨1⟩ spawn_sample_object.2
    (Or.inl rfl)

/-- C9 counterexample: a batch of resize events with no primary window
does not abort the program: the handler returns normally with all state
unchanged, even though no primary window was found. -/
theorem change_camera_scaling_no_primary_cex :
    change_camera_scaling ⟨20, 15⟩ [⟨800, 600, false⟩]
      [⟨ScalingMode.FixedVertical, 15 / 2⟩] spawn_letterboxes
      = some ([⟨ScalingMode.FixedVertical, 15 / 2⟩], spawn_letterboxes) ∧
    change_camera_scaling ⟨20, 15⟩ [⟨800, 600, false⟩]
      [⟨ScalingMode.FixedVertical, 15 / 2⟩] spawn_letterboxes ≠ none := by
  constructor
  · norm_num [change_camera_scaling, List.find?]
  · norm_num [change_camera_scaling, List.find?]
    exact fun h => Option.noConfusion h

/-- C9 (amended): if a primary-window resize event is present but the
camera projection query is empty, the handler aborts (the `unwrap()`
panic, embedded as `none`); if no resize event concerns the primary
window, the handler returns normally with all state unchanged instead of
aborting. -/
theorem change_camera_scaling_abort_spec :
    (∀ (su : ScreenUnits) (events : List WindowResized) (w : WindowResized)
      (lbs : List (Letterbox × Transform)),
      events.find? (fun e => e.is_primary) = some w →
      change_camera_scaling su events [] lbs = none) ∧
    (∀ (su : ScreenUnits) (events : List WindowResized)
      (projs : List OrthographicProjection)
      (lbs : List (Letterbox × Transform)),
      events.find? (fun e => e.is_primary) = none →
      change_camera_scaling su events projs lbs = some (projs, lbs)) := by
  constructor
  · intro su events w lbs h
    unfold change_camera_scaling
    rw [h]
  · intro su events projs lbs h
    unfold change_camera_scaling
    rw [h]

/-- C9 witness at a concrete input. -/
theorem change_camera_scaling_abort_spec_witness :
    change_camera_scaling ⟨20, 15⟩ [⟨800, 600, true⟩] [] spawn_letterboxes
      = none :=
  change_camera_scaling_abort_spec.1 ⟨20, 15⟩ [⟨800, 600, true⟩]
    ⟨800, 600, true⟩ spawn_letterboxes rfl

/-- C10: for direction in `{-1, +1}` one tick of `move_sample_object`
changes the x position by exactly `1/6` in absolute value, and when the
position is outside the boundary threshold the applied delta is the
flipped direction divided by 6, so the new position is
`p - old_direction / 6`. -/
theorem move_sample_object_delta
    (su : ScreenUnits) (object : SampleObject) (t : Transform)
    (hd : object.direction = 1 ∨ object.direction = -1) :
    ((move_sample_object su object t).2.translation.x - t.translation.x
        = 1 / 6 ∨
     (move_sample_object su object t).2.translation.x - t.translation.x
        = -(1 / 6)) ∧
    ((t.translation.x > (su.width + 4) / 2 ∨
        t.translation.x < -((su.width + 4) / 2)) →
      (move_sample_object su object t).2.translation.x
        = t.translation.x - (object.direction : ℚ) / 6) := by
  constructor
  · unfold move_sample_object
    by_cases h : t.translation.x > (su.width + 4) / 2 ∨
      t.translation.x < -((su.width + 4) / 2)
    · rw [if_pos h]
      rcases hd with hd | hd <;> simp [hd] <;> norm_num
    · rw [if_neg h]
      rcases hd with hd | hd <;> simp [hd] <;> norm_num
  · intro h
    unfold move_sample_object
    rw [if_pos h]
    push_cast
    ring_nf

/-- C10 witness at a concrete input. -/
theorem move_sample_object_delta_witness :
    (((move_sample_object ⟨20, 15⟩ ⟨1⟩
        spawn_sample_object.2).2.translation.x
          - spawn_sample_object.2.translation.x = 1 / 6 ∨
      (move_sample_object ⟨20, 15⟩ ⟨1⟩
        spawn_sample_object.2).2.translation.x
          - spawn_sample_object.2.translation.x = -(1 / 6)) ∧
     ((spawn_sample_object.2.translation.x > ((20 : ℚ) + 4) / 2 ∨
        spawn_sample_object.2.translation.x < -(((20 : ℚ) + 4) / 2)) →
      (move_sample_object ⟨20, 15⟩ ⟨1⟩
        spawn_sample_object.2).2.translation.x
          = spawn_sample_object.2.translation.x - ((1 : ℤ) : ℚ) / 6)) :=
  move_sample_object_delta ⟨20, 15⟩ ⟨1⟩ spawn_sample_object.2 (Or.inl rfl)

end BevyLetterboxes
